import Mathlib

/-!
Shallow embedding of `torch/csrc/distributed/rpc/torchscript_functions.cpp`
(the client-side dispatch protocol of the distributed RPC layer: the
fire-and-dispatch call `rpcTorchscript` and the remote-reference call
`remoteTorchscript`).

The two C++ functions are sequential straight-line code whose interesting
behaviour is the ordered sequence of calls they make into external
collaborators (transport send, reference registry, future-callback
registration) and the contents of the closures they register.  We embed an
execution as a pure function producing the returned value together with an
ordered trace of collaborator events, and we embed each registered closure
as a pure function from the state of its captured weak handle to the effect
it performs.

External collaborators that are not part of the source fragment (the
registry's id allocation, `callback::confirmPendingUser`, the future
callback contract, `_call_end_callbacks_on_fut`) are modelled from the
specification, each marked in its doc comment.
-/

namespace TorchRpc

/-- Argument / result values (`c10::IValue`) are opaque to this layer. -/
abbrev IValue := Nat

/-- TorchScript types (`c10::TypePtr`) are opaque labels to this layer. -/
abbrev TypeT := Nat

/-- `c10::FunctionSchema`, reduced to what the fragment reads from it: the
list of declared return types (`functionSchema.returns()`, each entry giving
its `.type()`). -/
structure FunctionSchema where
  returns : List TypeT
deriving DecidableEq

/-- The two outbound message kinds built by the fragment: `ScriptCall`
(qualified name, moved argument stack, async flag) and `ScriptRemoteCall`
(additionally the rref id and fork id of the reference being created). -/
inductive RpcMessage where
  | scriptCall (qualifiedName : String) (stack : List IValue)
      (isAsyncExecution : Bool)
  | scriptRemoteCall (qualifiedName : String) (stack : List IValue)
      (rrefId : Nat) (forkId : Nat) (isAsyncExecution : Bool)
deriving DecidableEq

/-- Identifies which closure was registered by `addCallback`:
the result-bridging lambda of `rpcTorchscript` (capturing the typed future
of the given return type), the `confirmPendingUser` lambda of the remote
branch of `remoteTorchscript` (capturing the fork id), or the
`finishCreatingOwnerRRef` lambda of the local branch (capturing the owner
rref id). -/
inductive CallbackTag where
  | rpcBridge (returnType : TypeT)
  | confirmPending (forkId : Nat)
  | finishCreatingOwner (rrefId : Nat)
deriving DecidableEq

/-- One observable call into an external collaborator, in program order. -/
inductive Event where
  | recordFunctionEnter (key : String)
  | setCurrentKey (key : String)
  | sendMessage (dstId : Nat) (msg : RpcMessage)
  | createUserRRefEv (ownerId : Nat) (ty : TypeT) (rrefId : Nat) (forkId : Nat)
  | createOwnerRRefEv (ty : TypeT) (rrefId : Nat)
  | registerOwnerCreationFuture (rrefId : Nat)
  | addPendingUser (forkId : Nat) (rrefId : Nat)
  | addSelfAsFork (rrefId : Nat)
  | addCallback (tag : CallbackTag)
  | callEndCallbacks (handle : String)
deriving DecidableEq

/-- The future values this fragment can return to its caller: the untyped
transport future, the typed result future created by
`jitFuture->createInstance(returnType)`, or the profiled wrapper returned by
`_call_end_callbacks_on_fut` (identified by the span key of the handle it
closes). -/
inductive Fut where
  | transport
  | typed (returnType : TypeT)
  | profiled (handle : String) (inner : Fut)
deriving DecidableEq

/-- Result of a run: either a normal return, or termination inside
`TORCH_INTERNAL_ASSERT` (the arity check). -/
inductive Outcome (α : Type) where
  | ok (value : α)
  | assertFailed
deriving DecidableEq

/-- The two reference variants produced by `remoteTorchscript`:
`UserRRef` (owner worker id, rref id, fork id, element type) and
`OwnerRRef` (rref id, element type). -/
inductive RRef where
  | userR (ownerId : Nat) (rrefId : Nat) (forkId : Nat) (ty : TypeT)
  | ownerR (rrefId : Nat) (ty : TypeT)
deriving DecidableEq

/-- Ambient process state the fragment reads: profiler enablement and
whether the remote profiler key is already set (both read at entry of
`rpcTorchscript`), the local worker's name (for the span key), worker-name
resolution (`RpcAgent::getWorkerInfo(name).id_`), and the local worker id
(`RRefContext::getWorkerId()`). -/
structure RpcEnv where
  profilerEnabled : Bool
  isCurrentKeySet : Bool
  localWorkerName : String
  resolveId : String → Nat
  localWorkerId : Nat

/-- `shouldProfile` as computed at entry of `rpcTorchscript`:
`profilerEnabled() && !isCurrentKeySet()`. -/
def shouldProfileOf (env : RpcEnv) : Bool :=
  env.profilerEnabled && !env.isCurrentKeySet

/-- The profiling span key `rpc_async_jit#qualifiedName(src -> dst)` built
by the `fmt::format` call. -/
def profilerKey (qualifiedName src dst : String) : String :=
  "rpc_async_jit#" ++ qualifiedName ++ "(" ++ src ++ " -> " ++ dst ++ ")"

/-- Modelled from the spec: `createUserReference(ownerId, type) -> UserRef`
of the reference-registry collaborator interface — "allocate a fresh
reference id scoped to the destination owner and a fork id for this creation
event".  Fresh ids are drawn from the registry's id counter; the counter
after the call is returned alongside the reference. -/
def createUserRRef (nextId : Nat) (ownerId : Nat) (ty : TypeT) : RRef × Nat :=
  (RRef.userR ownerId nextId (nextId + 1) ty, nextId + 2)

/-- Modelled from the spec: `createOwnerReference(type) -> OwnerRef` of the
reference-registry collaborator interface — "Create an Owner reference with
a fresh reference id (no separate fork id)". -/
def createOwnerRRef (nextId : Nat) (ty : TypeT) : RRef × Nat :=
  (RRef.ownerR nextId ty, nextId + 1)

/-- Result of one run of `rpcTorchscript`: the outcome (returned future or
assertion failure), the ordered collaborator-event trace up to the return or
the failing assert, and the state of the caller's argument vector after the
call (the source takes `stack` by mutable reference and moves out of it). -/
structure RpcRun where
  outcome : Outcome Fut
  trace : List Event
  callerStack : List IValue
deriving DecidableEq

/-- Embedding of `rpcTorchscript` (source lines 17–84), in source order:
optionally open the profiling span and set the remote profiler key; build
the `ScriptCall` by moving the caller's stack; send it through
`sendMessageWithAutograd` obtaining `jitFuture`; assert the declared return
arity is exactly 1 (`TORCH_INTERNAL_ASSERT`, which fires *after* the send);
create the typed future `futPtr`; register the bridging callback on
`jitFuture`; and return either `futPtr` or, when profiling, the wrapper
produced by `_call_end_callbacks_on_fut(handle, futPtr)`. -/
def rpcTorchscript (env : RpcEnv) (dstWorkerName qualifiedName : String)
    (functionSchema : FunctionSchema) (stack : List IValue)
    (isAsyncExecution : Bool) : RpcRun :=
  let shouldProfile := shouldProfileOf env
  let key := profilerKey qualifiedName env.localWorkerName dstWorkerName
  let profTrace :=
    if shouldProfile then
      [Event.recordFunctionEnter key, Event.setCurrentKey key]
    else []
  let msg := RpcMessage.scriptCall qualifiedName stack isAsyncExecution
  let trace1 := profTrace ++ [Event.sendMessage (env.resolveId dstWorkerName) msg]
  if functionSchema.returns.length = 1 then
    let returnType := functionSchema.returns.headD 0
    let futPtr := Fut.typed returnType
    let trace2 := trace1 ++ [Event.addCallback (CallbackTag.rpcBridge returnType)]
    if shouldProfile then
      { outcome := Outcome.ok (Fut.profiled key futPtr),
        trace := trace2 ++ [Event.callEndCallbacks key],
        callerStack := [] }
    else
      { outcome := Outcome.ok futPtr, trace := trace2, callerStack := [] }
  else
    { outcome := Outcome.assertFailed, trace := trace1, callerStack := [] }

/-- Result of one run of `remoteTorchscript`: the outcome (returned RRef or
assertion failure), the event trace, the caller's argument vector after the
call, and the registry id counter after the call. -/
structure RemoteRun where
  outcome : Outcome RRef
  trace : List Event
  callerStack : List IValue
  nextId : Nat
deriving DecidableEq

/-- Embedding of `remoteTorchscript` (source lines 86–160), in source order:
resolve the destination, assert return arity 1 (here *before* any send or
registry call; the caller's stack is not yet moved at that point), then
branch on locality (`ctx.getWorkerId() != dstWorkerInfo.id_`).
Remote branch: `createUserRRef`, build `ScriptRemoteCall` with
`(rrefId, forkId)` moving the stack, send, `registerOwnerCreationFuture`,
`addPendingUser`, register the `confirmPendingUser` callback, return the
UserRRef.  Local branch: `createOwnerRRef`, `addSelfAsFork`, build
`ScriptRemoteCall` with `(rrefId, rrefId)` moving the stack, send,
`registerOwnerCreationFuture`, register the `finishCreatingOwnerRRef`
callback, return the OwnerRRef. -/
def remoteTorchscript (env : RpcEnv) (nextId : Nat)
    (dstWorkerName qualifiedName : String) (functionSchema : FunctionSchema)
    (stack : List IValue) (isAsyncExecution : Bool) : RemoteRun :=
  let dstId := env.resolveId dstWorkerName
  if functionSchema.returns.length = 1 then
    let returnType := functionSchema.returns.headD 0
    if env.localWorkerId ≠ dstId then
      let (userRRef, nid1) := createUserRRef nextId dstId returnType
      match userRRef with
      | RRef.userR o r f t =>
        let msg := RpcMessage.scriptRemoteCall qualifiedName stack r f
          isAsyncExecution
        { outcome := Outcome.ok (RRef.userR o r f t),
          trace := [Event.createUserRRefEv o t r f,
                    Event.sendMessage dstId msg,
                    Event.registerOwnerCreationFuture r,
                    Event.addPendingUser f r,
                    Event.addCallback (CallbackTag.confirmPending f)],
          callerStack := [],
          nextId := nid1 }
      | RRef.ownerR _ _ =>
        { outcome := Outcome.assertFailed, trace := [], callerStack := stack,
          nextId := nextId }
    else
      let (ownerRRef, nid1) := createOwnerRRef nextId returnType
      match ownerRRef with
      | RRef.ownerR r t =>
        let msg := RpcMessage.scriptRemoteCall qualifiedName stack r r
          isAsyncExecution
        { outcome := Outcome.ok (RRef.ownerR r t),
          trace := [Event.createOwnerRRefEv t r,
                    Event.addSelfAsFork r,
                    Event.sendMessage dstId msg,
                    Event.registerOwnerCreationFuture r,
                    Event.addCallback (CallbackTag.finishCreatingOwner r)],
          callerStack := [],
          nextId := nid1 }
      | RRef.userR _ _ _ _ =>
        { outcome := Outcome.assertFailed, trace := [], callerStack := stack,
          nextId := nextId }
  else
    { outcome := Outcome.assertFailed, trace := [], callerStack := stack,
      nextId := nextId }

/-! ### Callback closures

Each `addCallback` lambda captures the transport future only through
`std::weak_ptr<JitFuture> wp`; at run time it executes `wp.lock()` and then
uses the result **without a null check** (`future->hasError()` /
`*wp.lock()`).  We embed the state of the weak handle at run time and the
effect the closure performs on it.  Dereferencing the result of a failed
lock is the abnormal `nullDeref` effect. -/

/-- The settled state of the transport future as seen by a callback:
either failed with an exception, or completed with a `Message` payload and
its auxiliary data pointers (`future->dataPtrs()`). -/
inductive FutureResult where
  | failed (err : Nat)
  | succeeded (payload : RpcMessage) (dataPtrs : List Nat)
deriving DecidableEq

/-- What `wp.lock()` can yield at callback-run time: the still-alive future
in its settled state, or nothing because the future was destroyed. -/
inductive WeakLock where
  | alive (result : FutureResult)
  | destroyed
deriving DecidableEq

/-- The effect a registered closure performs when run: dereference a null
handle (the lock failed and the closure uses the result anyway), do nothing
at all, set the error of the captured typed future, complete the captured
typed future with a value and data pointers, call
`callback::confirmPendingUser` on the settled future for a fork id, or call
`callback::finishCreatingOwnerRRef` on the settled future for an rref id.
`noop` is produced by no closure of this fragment; it is the behaviour the
spec prescribes for a destroyed future. -/
inductive CbEffect where
  | nullDeref
  | noop
  | setErrorOn (err : Nat)
  | markCompleted (value : IValue) (dataPtrs : List Nat)
  | confirmPendingUser (result : FutureResult) (forkId : Nat)
  | finishCreatingOwnerRRef (result : FutureResult) (rrefId : Nat)
deriving DecidableEq

/-- The bridging lambda of `rpcTorchscript` (source lines 67–77): lock `wp`;
then, with no null check, test `future->hasError()`: on error,
`futPtr->setError(future->exception_ptr())`; otherwise
`futPtr->markCompleted(deserializeRespToIValue(message), future->dataPtrs())`.
`deserialize` stands for the external `deserializeRespToIValue`. -/
def rpcBridgeCallback (deserialize : RpcMessage → IValue) :
    WeakLock → CbEffect
  | WeakLock.destroyed => CbEffect.nullDeref
  | WeakLock.alive (FutureResult.failed e) => CbEffect.setErrorOn e
  | WeakLock.alive (FutureResult.succeeded p d) =>
      CbEffect.markCompleted (deserialize p) d

/-- The remote-branch lambda of `remoteTorchscript` (source lines 127–130):
`callback::confirmPendingUser(*wp.lock(), forkId)` — the lock result is
dereferenced unconditionally. -/
def confirmPendingCallback (forkId : Nat) : WeakLock → CbEffect
  | WeakLock.destroyed => CbEffect.nullDeref
  | WeakLock.alive r => CbEffect.confirmPendingUser r forkId

/-- The local-branch lambda of `remoteTorchscript` (source lines 154–157):
`callback::finishCreatingOwnerRRef(*wp.lock(), ownerRRefId)` — the lock
result is dereferenced unconditionally. -/
def finishOwnerCallback (rrefId : Nat) : WeakLock → CbEffect
  | WeakLock.destroyed => CbEffect.nullDeref
  | WeakLock.alive r => CbEffect.finishCreatingOwnerRRef r rrefId

/-- Dispatch from a registered callback tag to the closure it denotes. -/
def runCallback (deserialize : RpcMessage → IValue) :
    CallbackTag → WeakLock → CbEffect
  | CallbackTag.rpcBridge _, w => rpcBridgeCallback deserialize w
  | CallbackTag.confirmPending f, w => confirmPendingCallback f w
  | CallbackTag.finishCreatingOwner r, w => finishOwnerCallback r w

/-! ### Registry and future collaborator contracts (modelled from the spec) -/

/-- The fork-tracking state of the reference registry visible to this
fragment: pending user forks `(forkId, rrefId)` and confirmed fork ids. -/
structure Registry where
  pendingUsers : List (Nat × Nat)
  confirmedUsers : List Nat
deriving DecidableEq

/-- Whether a fork id is currently tracked as pending. -/
def Registry.hasPending (reg : Registry) (forkId : Nat) : Bool :=
  reg.pendingUsers.any (fun q => q.1 == forkId)

/-- Modelled from the spec: the behaviour of the external
`callback::confirmPendingUser` (its body lives in the registry, outside this
fragment) — "on success, transition the fork from pending to confirmed; on
failure, ... the registry must release the pending fork rather than leave it
dangling". -/
def confirmPendingUserAction (result : FutureResult) (forkId : Nat)
    (reg : Registry) : Registry :=
  match result with
  | FutureResult.failed _ =>
      { reg with pendingUsers := reg.pendingUsers.filter (fun q => q.1 != forkId) }
  | FutureResult.succeeded _ _ =>
      { pendingUsers := reg.pendingUsers.filter (fun q => q.1 != forkId),
        confirmedUsers := reg.confirmedUsers ++ [forkId] }

/-- The callbacks registered during a run, in registration order. -/
def registeredCallbacks (t : List Event) : List CallbackTag :=
  t.filterMap (fun e =>
    match e with
    | Event.addCallback tag => some tag
    | _ => none)

/-- Modelled from the spec: the Future callback contract — settlement
"triggers all registered callbacks, each exactly once, in registration
order".  Settling a future with result `r` runs every registered closure
once on the live settled future. -/
def settleCallbacks (deserialize : RpcMessage → IValue) (r : FutureResult)
    (tags : List CallbackTag) : List CbEffect :=
  tags.map (fun t => runCallback deserialize t (WeakLock.alive r))

/-- Modelled from the spec: the wrapper returned by the external
`_call_end_callbacks_on_fut(handle, fut)` closes its span exactly when the
wrapped future settles; this extracts, for a returned future, the span
handle (if any) that its settlement closes. -/
def spanClosedAtSettle : Fut → Option String
  | Fut.profiled h _ => some h
  | _ => none

/-! ### Trace-position helpers -/

/-- Index of the first event satisfying `p`, if any. -/
def eventIdx (t : List Event) (p : Event → Bool) : Option Nat :=
  match t with
  | [] => none
  | e :: rest => if p e then some 0 else (eventIdx rest p).map (· + 1)

def isSend : Event → Bool
  | Event.sendMessage _ _ => true
  | _ => false

def isAddPending : Event → Bool
  | Event.addPendingUser _ _ => true
  | _ => false

def isSelfFork : Event → Bool
  | Event.addSelfAsFork _ => true
  | _ => false

def isRegisterCreationFut : Event → Bool
  | Event.registerOwnerCreationFuture _ => true
  | _ => false

def isAddCb : Event → Bool
  | Event.addCallback _ => true
  | _ => false

def isCreateUser : Event → Bool
  | Event.createUserRRefEv _ _ _ _ => true
  | _ => false

/-! ### Concrete test fixtures -/

/-- A worker environment whose local id 0 differs from the id 1 that the
name "B" resolves to; profiling disabled. -/
def envRemote : RpcEnv where
  profilerEnabled := false
  isCurrentKeySet := false
  localWorkerName := "A"
  resolveId := fun n => if n = "B" then 1 else 0
  localWorkerId := 0

/-- A worker environment in which every name resolves to the local id 0;
profiling disabled. -/
def envLocal : RpcEnv where
  profilerEnabled := false
  isCurrentKeySet := false
  localWorkerName := "A"
  resolveId := fun _ => 0
  localWorkerId := 0

/-- Like `envRemote` but with the profiler enabled and no current key set,
so `shouldProfile` holds. -/
def envProf : RpcEnv where
  profilerEnabled := true
  isCurrentKeySet := false
  localWorkerName := "A"
  resolveId := fun n => if n = "B" then 1 else 0
  localWorkerId := 0

/-! ### Run-shape lemmas (shared helpers) -/

/-- Shape of a `remoteTorchscript` run with an arity-one schema whose
destination differs from the local worker. -/
theorem remote_run_remote_eq (env : RpcEnv) (nid : Nat) (dst f : String)
    (rt : TypeT) (stack : List IValue) (async : Bool)
    (hloc : env.localWorkerId ≠ env.resolveId dst) :
    remoteTorchscript env nid dst f ⟨[rt]⟩ stack async =
      { outcome := Outcome.ok (RRef.userR (env.resolveId dst) nid (nid + 1) rt),
        trace := [Event.createUserRRefEv (env.resolveId dst) rt nid (nid + 1),
                  Event.sendMessage (env.resolveId dst)
                    (RpcMessage.scriptRemoteCall f stack nid (nid + 1) async),
                  Event.registerOwnerCreationFuture nid,
                  Event.addPendingUser (nid + 1) nid,
                  Event.addCallback (CallbackTag.confirmPending (nid + 1))],
        callerStack := [],
        nextId := nid + 2 } := by
  simp [remoteTorchscript, createUserRRef, hloc]

/-- Shape of a `remoteTorchscript` run with an arity-one schema whose
destination is the local worker. -/
theorem remote_run_local_eq (env : RpcEnv) (nid : Nat) (dst f : String)
    (rt : TypeT) (stack : List IValue) (async : Bool)
    (hloc : env.localWorkerId = env.resolveId dst) :
    remoteTorchscript env nid dst f ⟨[rt]⟩ stack async =
      { outcome := Outcome.ok (RRef.ownerR nid rt),
        trace := [Event.createOwnerRRefEv rt nid,
                  Event.addSelfAsFork nid,
                  Event.sendMessage (env.resolveId dst)
                    (RpcMessage.scriptRemoteCall f stack nid nid async),
                  Event.registerOwnerCreationFuture nid,
                  Event.addCallback (CallbackTag.finishCreatingOwner nid)],
        callerStack := [],
        nextId := nid + 1 } := by
  simp [remoteTorchscript, createOwnerRRef, hloc]

/-- Shape of an `rpcTorchscript` run with an arity-one schema when profiling
is off. -/
theorem rpc_run_noprof_eq (env : RpcEnv) (dst f : String) (rt : TypeT)
    (stack : List IValue) (async : Bool)
    (hp : shouldProfileOf env = false) :
    rpcTorchscript env dst f ⟨[rt]⟩ stack async =
      { outcome := Outcome.ok (Fut.typed rt),
        trace := [Event.sendMessage (env.resolveId dst)
                    (RpcMessage.scriptCall f stack async),
                  Event.addCallback (CallbackTag.rpcBridge rt)],
        callerStack := [] } := by
  simp [rpcTorchscript, hp]

/-- Shape of an `rpcTorchscript` run with an arity-one schema when profiling
is on. -/
theorem rpc_run_prof_eq (env : RpcEnv) (dst f : String) (rt : TypeT)
    (stack : List IValue) (async : Bool)
    (hp : shouldProfileOf env = true) :
    rpcTorchscript env dst f ⟨[rt]⟩ stack async =
      { outcome := Outcome.ok (Fut.profiled
          (profilerKey f env.localWorkerName dst) (Fut.typed rt)),
        trace := [Event.recordFunctionEnter (profilerKey f env.localWorkerName dst),
                  Event.setCurrentKey (profilerKey f env.localWorkerName dst),
                  Event.sendMessage (env.resolveId dst)
                    (RpcMessage.scriptCall f stack async),
                  Event.addCallback (CallbackTag.rpcBridge rt),
                  Event.callEndCallbacks (profilerKey f env.localWorkerName dst)],
        callerStack := [] } := by
  simp [rpcTorchscript, hp]

/-- After `confirmPendingUserAction`, the fork id is no longer pending. -/
theorem hasPending_after_confirm (r : FutureResult) (forkId : Nat)
    (reg : Registry) :
    (confirmPendingUserAction r forkId reg).hasPending forkId = false := by
  cases r <;>
    simp [confirmPendingUserAction, Registry.hasPending, List.any_eq_true,
      List.mem_filter]

/-! ### Claim C1 -/

/-- Claim C1, counterexample: `rpcTorchscript` with a zero-return schema
does terminate in the arity assert, but the transport send *is* reached
first — the trace already contains the send (at index 0) when the assert
fires, refuting "the transport send is never reached". -/
theorem rpc_arity_assert_after_send_cex :
    (rpcTorchscript envRemote "B" "f" ⟨[]⟩ [3] false).outcome = Outcome.assertFailed
    ∧ eventIdx (rpcTorchscript envRemote "B" "f" ⟨[]⟩ [3] false).trace isSend
        = some 0 := by
  decide

/-- Claim C1 (amended): an arity other than one always makes both
operations fail synchronously in the internal assert, but only
`remoteTorchscript` checks before the send (its trace is empty);
`rpcTorchscript` performs the check only after the `ScriptCall` message has
been handed to the transport, so its trace contains the send. -/
theorem arity_mismatch_sync_assert (env : RpcEnv) (nid : Nat) (dst f : String)
    (schema : FunctionSchema) (stack : List IValue) (async : Bool)
    (h : schema.returns.length ≠ 1) :
    (remoteTorchscript env nid dst f schema stack async).outcome = Outcome.assertFailed
    ∧ (remoteTorchscript env nid dst f schema stack async).trace = []
    ∧ (rpcTorchscript env dst f schema stack async).outcome = Outcome.assertFailed
    ∧ Event.sendMessage (env.resolveId dst) (RpcMessage.scriptCall f stack async)
        ∈ (rpcTorchscript env dst f schema stack async).trace := by
  refine ⟨?_, ?_, ?_, ?_⟩
  · simp [remoteTorchscript, h]
  · simp [remoteTorchscript, h]
  · by_cases hp : shouldProfileOf env = true <;>
      simp [rpcTorchscript, h, hp]
  · by_cases hp : shouldProfileOf env = true <;>
      simp [rpcTorchscript, h, hp]

/-- Witness for `arity_mismatch_sync_assert` at a concrete zero-arity
schema. -/
theorem arity_mismatch_sync_assert_witness :
    ((⟨[]⟩ : FunctionSchema).returns.length ≠ 1)
    ∧ ((remoteTorchscript envRemote 0 "B" "f" ⟨[]⟩ [3] false).outcome = Outcome.assertFailed
       ∧ (remoteTorchscript envRemote 0 "B" "f" ⟨[]⟩ [3] false).trace = []
       ∧ (rpcTorchscript envRemote "B" "f" ⟨[]⟩ [3] false).outcome = Outcome.assertFailed
       ∧ Event.sendMessage (envRemote.resolveId "B") (RpcMessage.scriptCall "f" [3] false)
           ∈ (rpcTorchscript envRemote "B" "f" ⟨[]⟩ [3] false).trace) :=
  ⟨by decide, arity_mismatch_sync_assert envRemote 0 "B" "f" ⟨[]⟩ [3] false (by decide)⟩

/-! ### Claim C2 -/

/-- Claim C2, counterexample: in a concrete remote-destination
`remoteTorchscript` run, the transport receives the send at trace index 1
while `addPendingUser` only happens at index 3 — the pending-fork
registration is strictly *after* the send call, not before or atomic with
it. -/
theorem pending_registered_after_send_cex :
    eventIdx (remoteTorchscript envRemote 0 "B" "g" ⟨[9]⟩ [1, 2] false).trace isSend
      = some 1
    ∧ eventIdx (remoteTorchscript envRemote 0 "B" "g" ⟨[9]⟩ [1, 2] false).trace isAddPending
      = some 3
    ∧ ¬ (3 : Nat) ≤ 1 := by
  decide

/-- Claim C2 (amended): for a remote destination, the User reference — and
with it the fork id the message carries — is created *before* the send
(index 0 versus 1), but the fork is registered as pending only *after* the
send call has returned (index 3); the registration still precedes the
attachment of the confirmation callback (index 4), so no confirmation can be
processed in program order before the fork is pending. -/
theorem fork_pending_after_send_before_callback (env : RpcEnv) (nid : Nat)
    (dst f : String) (rt : TypeT) (stack : List IValue) (async : Bool)
    (hloc : env.localWorkerId ≠ env.resolveId dst) :
    eventIdx (remoteTorchscript env nid dst f ⟨[rt]⟩ stack async).trace isCreateUser
      = some 0
    ∧ eventIdx (remoteTorchscript env nid dst f ⟨[rt]⟩ stack async).trace isSend
      = some 1
    ∧ eventIdx (remoteTorchscript env nid dst f ⟨[rt]⟩ stack async).trace isAddPending
      = some 3
    ∧ eventIdx (remoteTorchscript env nid dst f ⟨[rt]⟩ stack async).trace isAddCb
      = some 4 := by
  rw [remote_run_remote_eq env nid dst f rt stack async hloc]
  simp [eventIdx, isCreateUser, isSend, isAddPending, isAddCb]

/-- Witness for `fork_pending_after_send_before_callback` at a concrete
remote destination. -/
theorem fork_pending_after_send_before_callback_witness :
    (envRemote.localWorkerId ≠ envRemote.resolveId "B")
    ∧ eventIdx (remoteTorchscript envRemote 0 "B" "g2" ⟨[9]⟩ [1] true).trace isCreateUser
        = some 0
    ∧ eventIdx (remoteTorchscript envRemote 0 "B" "g2" ⟨[9]⟩ [1] true).trace isSend
        = some 1
    ∧ eventIdx (remoteTorchscript envRemote 0 "B" "g2" ⟨[9]⟩ [1] true).trace isAddPending
        = some 3
    ∧ eventIdx (remoteTorchscript envRemote 0 "B" "g2" ⟨[9]⟩ [1] true).trace isAddCb
        = some 4 :=
  ⟨by decide,
   fork_pending_after_send_before_callback envRemote 0 "B" "g2" 9 [1] true (by decide)⟩

/-! ### Claim C3 -/

/-- Claim C3, counterexample: when the weak handle's lock fails (the future
was destroyed), each of the three registered closures dereferences the null
result — the effect is `nullDeref`, not the no-op the claim requires. -/
theorem weak_callback_nullderef_cex :
    rpcBridgeCallback (fun _ => 0) WeakLock.destroyed = CbEffect.nullDeref
    ∧ rpcBridgeCallback (fun _ => 0) WeakLock.destroyed ≠ CbEffect.noop
    ∧ confirmPendingCallback 1 WeakLock.destroyed = CbEffect.nullDeref
    ∧ finishOwnerCallback 0 WeakLock.destroyed = CbEffect.nullDeref := by
  decide

/-- Claim C3 (amended): every callback registered on a transport future
captures that future only through the weak handle, but performs *no*
upgrade-or-abort check: it locks the handle and uses the result
unconditionally, so on a destroyed future every closure dereferences null
(`nullDeref`), and no closure of this fragment ever behaves as a no-op. -/
theorem weak_capture_no_abort_check (deserialize : RpcMessage → IValue) :
    (∀ tag, runCallback deserialize tag WeakLock.destroyed = CbEffect.nullDeref)
    ∧ (∀ tag w, runCallback deserialize tag w ≠ CbEffect.noop) := by
  constructor
  · intro tag
    cases tag <;> rfl
  · intro tag w
    cases w with
    | destroyed =>
      cases tag <;>
        simp [runCallback, rpcBridgeCallback, confirmPendingCallback,
          finishOwnerCallback]
    | alive r =>
      cases tag with
      | rpcBridge t =>
        cases r <;> simp [runCallback, rpcBridgeCallback]
      | confirmPending fid => simp [runCallback, confirmPendingCallback]
      | finishCreatingOwner rid => simp [runCallback, finishOwnerCallback]

/-! ### Claim C4 -/

/-- Claim C4: for a remote destination, exactly one callback is registered
on the transport future, and it is the fork-confirmation closure for the
returned reference's fork id, so settling the future (the callbacks run
each exactly once, per the Future contract) triggers exactly one
`confirmPendingUser` effect for that fork id; under the spec-modelled
registry semantics, a successful settlement moves the fork from pending to
confirmed, and a failed settlement releases the pending fork (leaving the
confirmed set unchanged) rather than leaving it dangling. -/
theorem remote_confirm_fork_exactly_once (env : RpcEnv) (nid : Nat)
    (dst f : String) (rt : TypeT) (stack : List IValue) (async : Bool)
    (deserialize : RpcMessage → IValue)
    (hloc : env.localWorkerId ≠ env.resolveId dst) :
    (remoteTorchscript env nid dst f ⟨[rt]⟩ stack async).outcome
      = Outcome.ok (RRef.userR (env.resolveId dst) nid (nid + 1) rt)
    ∧ registeredCallbacks (remoteTorchscript env nid dst f ⟨[rt]⟩ stack async).trace
      = [CallbackTag.confirmPending (nid + 1)]
    ∧ (∀ r, settleCallbacks deserialize r
          (registeredCallbacks (remoteTorchscript env nid dst f ⟨[rt]⟩ stack async).trace)
        = [CbEffect.confirmPendingUser r (nid + 1)])
    ∧ (∀ p d reg,
        (confirmPendingUserAction (FutureResult.succeeded p d) (nid + 1) reg).hasPending (nid + 1)
          = false
        ∧ (nid + 1) ∈ (confirmPendingUserAction (FutureResult.succeeded p d) (nid + 1) reg).confirmedUsers)
    ∧ (∀ e reg,
        (confirmPendingUserAction (FutureResult.failed e) (nid + 1) reg).hasPending (nid + 1)
          = false
        ∧ (confirmPendingUserAction (FutureResult.failed e) (nid + 1) reg).confirmedUsers
          = reg.confirmedUsers) := by
  rw [remote_run_remote_eq env nid dst f rt stack async hloc]
  refine ⟨rfl, ?_, ?_, ?_, ?_⟩
  · simp [registeredCallbacks]
  · intro r
    simp [registeredCallbacks, settleCallbacks, runCallback,
      confirmPendingCallback]
  · intro p d reg
    exact ⟨hasPending_after_confirm _ _ _, by simp [confirmPendingUserAction]⟩
  · intro e reg
    exact ⟨hasPending_after_confirm _ _ _, by simp [confirmPendingUserAction]⟩

/-- Witness for `remote_confirm_fork_exactly_once` at a concrete remote
destination, settling once with a failure and once with a success. -/
theorem remote_confirm_fork_exactly_once_witness :
    (envRemote.localWorkerId ≠ envRemote.resolveId "B")
    ∧ (remoteTorchscript envRemote 0 "B" "h" ⟨[9]⟩ [4] false).outcome
        = Outcome.ok (RRef.userR 1 0 1 9)
    ∧ settleCallbacks (fun _ => 0) (FutureResult.failed 7)
        (registeredCallbacks (remoteTorchscript envRemote 0 "B" "h" ⟨[9]⟩ [4] false).trace)
        = [CbEffect.confirmPendingUser (FutureResult.failed 7) 1]
    ∧ (confirmPendingUserAction (FutureResult.succeeded (RpcMessage.scriptCall "h" [] false) []) 1
        ⟨[(1, 0)], []⟩).hasPending 1 = false :=
  ⟨by decide,
   (remote_confirm_fork_exactly_once envRemote 0 "B" "h" 9 [4] false (fun _ => 0) (by decide)).1,
   (remote_confirm_fork_exactly_once envRemote 0 "B" "h" 9 [4] false (fun _ => 0) (by decide)).2.2.1
     (FutureResult.failed 7),
   ((remote_confirm_fork_exactly_once envRemote 0 "B" "h" 9 [4] false (fun _ => 0) (by decide)).2.2.2.1
     (RpcMessage.scriptCall "h" [] false) [] ⟨[(1, 0)], []⟩).1⟩

/-! ### Claim C5 -/

/-- Claim C5: `rpcTorchscript` registers exactly one callback on the
transport future — the bridge for the declared return type — and that
bridge, run on the settled transport future, propagates an error settlement
to the typed result future (`setError`) and completes the typed result
future with the deserialized payload together with the transport's data
pointers on a successful settlement. -/
theorem rpc_bridge_semantics (env : RpcEnv) (dst f : String) (rt : TypeT)
    (stack : List IValue) (async : Bool) (deserialize : RpcMessage → IValue) :
    registeredCallbacks (rpcTorchscript env dst f ⟨[rt]⟩ stack async).trace
      = [CallbackTag.rpcBridge rt]
    ∧ (∀ e, rpcBridgeCallback deserialize (WeakLock.alive (FutureResult.failed e))
        = CbEffect.setErrorOn e)
    ∧ (∀ p d, rpcBridgeCallback deserialize (WeakLock.alive (FutureResult.succeeded p d))
        = CbEffect.markCompleted (deserialize p) d) := by
  refine ⟨?_, fun e => rfl, fun p d => rfl⟩
  by_cases hp : shouldProfileOf env = true
  · rw [rpc_run_prof_eq env dst f rt stack async hp]
    simp [registeredCallbacks]
  · rw [rpc_run_noprof_eq env dst f rt stack async (by simpa using hp)]
    simp [registeredCallbacks]

/-! ### Claim C6 -/

/-- Claim C6: `remoteTorchscript` branches on locality of the resolved
destination: when the destination id differs from the local worker id it
returns a User reference created with the destination as owner and the
declared return type; when they coincide it returns an Owner reference with
the declared return type. -/
theorem remote_locality_branch (env : RpcEnv) (nid : Nat) (dst f : String)
    (rt : TypeT) (stack : List IValue) (async : Bool) :
    (env.localWorkerId ≠ env.resolveId dst →
      (remoteTorchscript env nid dst f ⟨[rt]⟩ stack async).outcome
        = Outcome.ok (RRef.userR (env.resolveId dst) nid (nid + 1) rt))
    ∧ (env.localWorkerId = env.resolveId dst →
      (remoteTorchscript env nid dst f ⟨[rt]⟩ stack async).outcome
        = Outcome.ok (RRef.ownerR nid rt)) := by
  constructor
  · intro hloc
    rw [remote_run_remote_eq env nid dst f rt stack async hloc]
  · intro hloc
    rw [remote_run_local_eq env nid dst f rt stack async hloc]

/-- Witness for `remote_locality_branch`, exercising both the remote branch
(ids 0 versus 1) and the local branch (ids 0 versus 0). -/
theorem remote_locality_branch_witness :
    (remoteTorchscript envRemote 0 "B" "k" ⟨[9]⟩ [1] false).outcome
      = Outcome.ok (RRef.userR 1 0 1 9)
    ∧ (remoteTorchscript envLocal 3 "B" "k" ⟨[9]⟩ [1] false).outcome
      = Outcome.ok (RRef.ownerR 3 9) :=
  ⟨(remote_locality_branch envRemote 0 "B" "k" 9 [1] false).1 (by decide),
   (remote_locality_branch envLocal 3 "B" "k" 9 [1] false).2 (by decide)⟩

/-! ### Claim C7 -/

/-- Claim C7: in the local (destination = self) branch of
`remoteTorchscript`, the Owner reference is registered as its own fork
(`addSelfAsFork`, index 1) strictly before the message is dispatched
(`sendMessage`, index 2); since the creation future only comes into
existence with the send and is registered and given its callback after it
(indices 3 and 4), the self-fork registration also precedes any point at
which that future could settle in program order. -/
theorem self_fork_before_send (env : RpcEnv) (nid : Nat) (dst f : String)
    (rt : TypeT) (stack : List IValue) (async : Bool)
    (hloc : env.localWorkerId = env.resolveId dst) :
    eventIdx (remoteTorchscript env nid dst f ⟨[rt]⟩ stack async).trace isSelfFork
      = some 1
    ∧ eventIdx (remoteTorchscript env nid dst f ⟨[rt]⟩ stack async).trace isSend
      = some 2
    ∧ eventIdx (remoteTorchscript env nid dst f ⟨[rt]⟩ stack async).trace isRegisterCreationFut
      = some 3
    ∧ eventIdx (remoteTorchscript env nid dst f ⟨[rt]⟩ stack async).trace isAddCb
      = some 4 := by
  rw [remote_run_local_eq env nid dst f rt stack async hloc]
  simp [eventIdx, isSelfFork, isSend, isRegisterCreationFut, isAddCb]

/-- Witness for `self_fork_before_send` at a concrete self destination. -/
theorem self_fork_before_send_witness :
    (envLocal.localWorkerId = envLocal.resolveId "A")
    ∧ eventIdx (remoteTorchscript envLocal 2 "A" "p" ⟨[9]⟩ [5] false).trace isSelfFork
        = some 1
    ∧ eventIdx (remoteTorchscript envLocal 2 "A" "p" ⟨[9]⟩ [5] false).trace isSend
        = some 2
    ∧ eventIdx (remoteTorchscript envLocal 2 "A" "p" ⟨[9]⟩ [5] false).trace isRegisterCreationFut
        = some 3
    ∧ eventIdx (remoteTorchscript envLocal 2 "A" "p" ⟨[9]⟩ [5] false).trace isAddCb
        = some 4 :=
  ⟨by decide, self_fork_before_send envLocal 2 "A" "p" 9 [5] false (by decide)⟩

/-! ### Claim C8 -/

/-- Claim C8: in the local branch of `remoteTorchscript`, the
`ScriptRemoteCall` descriptor carries the pair `(rrefId, rrefId)` — the
Owner reference's own id fills both the reference-id and fork-id slots —
and the registry's id counter advances by exactly one, so no separate fork
id is allocated. -/
theorem owner_descriptor_id_pair (env : RpcEnv) (nid : Nat) (dst f : String)
    (rt : TypeT) (stack : List IValue) (async : Bool)
    (hloc : env.localWorkerId = env.resolveId dst) :
    (remoteTorchscript env nid dst f ⟨[rt]⟩ stack async).outcome
      = Outcome.ok (RRef.ownerR nid rt)
    ∧ Event.sendMessage (env.resolveId dst)
        (RpcMessage.scriptRemoteCall f stack nid nid async)
        ∈ (remoteTorchscript env nid dst f ⟨[rt]⟩ stack async).trace
    ∧ (remoteTorchscript env nid dst f ⟨[rt]⟩ stack async).nextId = nid + 1 := by
  rw [remote_run_local_eq env nid dst f rt stack async hloc]
  refine ⟨rfl, ?_, rfl⟩
  simp

/-- Witness for `owner_descriptor_id_pair` at a concrete self
destination. -/
theorem owner_descriptor_id_pair_witness :
    (envLocal.localWorkerId = envLocal.resolveId "A")
    ∧ (remoteTorchscript envLocal 4 "A" "q" ⟨[9]⟩ [6] false).outcome
        = Outcome.ok (RRef.ownerR 4 9)
    ∧ Event.sendMessage (envLocal.resolveId "A")
        (RpcMessage.scriptRemoteCall "q" [6] 4 4 false)
        ∈ (remoteTorchscript envLocal 4 "A" "q" ⟨[9]⟩ [6] false).trace
    ∧ (remoteTorchscript envLocal 4 "A" "q" ⟨[9]⟩ [6] false).nextId = 5 :=
  ⟨by decide, owner_descriptor_id_pair envLocal 4 "A" "q" 9 [6] false (by decide)⟩

/-! ### Claim C9 -/

/-- Claim C9: when the profiling span is opened at entry of
`rpcTorchscript`, the returned future is the wrapper around the typed
result future whose settlement closes exactly that span (the span the
entry's `record_function_enter` opened, which the trace shows); when no
span is opened, the typed result future is returned directly, unwrapped. -/
theorem rpc_profiling_wrap (env : RpcEnv) (dst f : String) (rt : TypeT)
    (stack : List IValue) (async : Bool) :
    (shouldProfileOf env = true →
      (rpcTorchscript env dst f ⟨[rt]⟩ stack async).outcome
        = Outcome.ok (Fut.profiled (profilerKey f env.localWorkerName dst) (Fut.typed rt))
      ∧ spanClosedAtSettle
          (Fut.profiled (profilerKey f env.localWorkerName dst) (Fut.typed rt))
        = some (profilerKey f env.localWorkerName dst)
      ∧ Event.recordFunctionEnter (profilerKey f env.localWorkerName dst)
          ∈ (rpcTorchscript env dst f ⟨[rt]⟩ stack async).trace)
    ∧ (shouldProfileOf env = false →
      (rpcTorchscript env dst f ⟨[rt]⟩ stack async).outcome
        = Outcome.ok (Fut.typed rt)
      ∧ spanClosedAtSettle (Fut.typed rt) = none) := by
  constructor
  · intro hp
    rw [rpc_run_prof_eq env dst f rt stack async hp]
    refine ⟨rfl, rfl, ?_⟩
    simp
  · intro hp
    rw [rpc_run_noprof_eq env dst f rt stack async hp]
    exact ⟨rfl, rfl⟩

/-- Witness for `rpc_profiling_wrap`, exercising both the profiling and the
non-profiling environment. -/
theorem rpc_profiling_wrap_witness :
    ((rpcTorchscript envProf "B" "m" ⟨[9]⟩ [2] false).outcome
        = Outcome.ok (Fut.profiled (profilerKey "m" "A" "B") (Fut.typed 9))
      ∧ spanClosedAtSettle (Fut.profiled (profilerKey "m" "A" "B") (Fut.typed 9))
        = some (profilerKey "m" "A" "B")
      ∧ Event.recordFunctionEnter (profilerKey "m" "A" "B")
          ∈ (rpcTorchscript envProf "B" "m" ⟨[9]⟩ [2] false).trace)
    ∧ ((rpcTorchscript envRemote "B" "m" ⟨[9]⟩ [2] false).outcome
        = Outcome.ok (Fut.typed 9)
      ∧ spanClosedAtSettle (Fut.typed 9) = none) :=
  ⟨(rpc_profiling_wrap envProf "B" "m" 9 [2] false).1 (by decide),
   (rpc_profiling_wrap envRemote "B" "m" 9 [2] false).2 (by decide)⟩

/-! ### Claim C10 -/

/-- Claim C10: both operations move the caller's argument stack into the
outbound call descriptor: on every normal (arity-one) run the caller's
vector is left moved-from (empty) after the call, and the sent message
carries exactly the original argument list — the arguments travel in the
descriptor, not as a copy left with the caller. -/
theorem argument_stack_moved (env : RpcEnv) (nid : Nat) (dst f : String)
    (rt : TypeT) (stack : List IValue) (async : Bool) :
    (rpcTorchscript env dst f ⟨[rt]⟩ stack async).callerStack = []
    ∧ Event.sendMessage (env.resolveId dst) (RpcMessage.scriptCall f stack async)
        ∈ (rpcTorchscript env dst f ⟨[rt]⟩ stack async).trace
    ∧ (remoteTorchscript env nid dst f ⟨[rt]⟩ stack async).callerStack = []
    ∧ (∃ rid fid, Event.sendMessage (env.resolveId dst)
        (RpcMessage.scriptRemoteCall f stack rid fid async)
        ∈ (remoteTorchscript env nid dst f ⟨[rt]⟩ stack async).trace) := by
  refine ⟨?_, ?_, ?_, ?_⟩
  · by_cases hp : shouldProfileOf env = true
    · rw [rpc_run_prof_eq env dst f rt stack async hp]
    · rw [rpc_run_noprof_eq env dst f rt stack async (by simpa using hp)]
  · by_cases hp : shouldProfileOf env = true
    · rw [rpc_run_prof_eq env dst f rt stack async hp]; simp
    · rw [rpc_run_noprof_eq env dst f rt stack async (by simpa using hp)]; simp
  · by_cases hloc : env.localWorkerId = env.resolveId dst
    · rw [remote_run_local_eq env nid dst f rt stack async hloc]
    · rw [remote_run_remote_eq env nid dst f rt stack async hloc]
  · by_cases hloc : env.localWorkerId = env.resolveId dst
    · refine ⟨nid, nid, ?_⟩
      rw [remote_run_local_eq env nid dst f rt stack async hloc]
      simp
    · refine ⟨nid, nid + 1, ?_⟩
      rw [remote_run_remote_eq env nid dst f rt stack async hloc]
      simp

end TorchRpc
